import Mathlib

/-!
# ShadowLink: configuration validation, transport defaults and session entry points

A shallow embedding of the Go packages `internal/config`, `internal/transport`,
`internal/session` and `internal/cli`.

Conventions of the embedding:
* Go `string` is `String`, Go `int` and `time.Duration` are `Int`,
  a slice is a `List` (only `len` is ever taken), a nilable pointer is an `Option`.
* Go `error` results are `Option`s: `none` is `nil`.
* `fmt.Printf` is modelled by returning the text written to standard output.
-/

namespace time

/-- Go `time.Duration`: a signed count of nanoseconds. -/
abbrev Duration := Int

/-- Go `time.Second`, in nanoseconds. -/
def Second : Duration := 1000000000

end time

namespace config

/-- The sentinel error values of `internal/config/errors.go`. Each `errors.New`
call yields a value distinct from every other. -/
inductive ConfigError where
  | ErrInvalidMode
  | ErrMissingListen
  | ErrMissingPaths
  | ErrMissingPSK
  | ErrInvalidConfig
  | ErrLoadConfig
  deriving DecidableEq, Repr

open ConfigError

/-- The text given to `errors.New` for each sentinel. -/
def ConfigError.Error : ConfigError → String
  | ErrInvalidMode => "invalid mode: must be \x27server\x27 or \x27client\x27"
  | ErrMissingListen => "missing listen address for server mode"
  | ErrMissingPaths => "missing connection paths for client mode"
  | ErrMissingPSK => "missing pre-shared key (PSK)"
  | ErrInvalidConfig => "invalid configuration"
  | ErrLoadConfig => "failed to load configuration"

def TransportTCP : String := "tcp"
def TransportKCP : String := "kcp"
def TransportWS : String := "ws"
def TransportWSS : String := "wss"
def TransportHTTP : String := "http"
def TransportHTTPS : String := "https"

def AlgoAESGCM : String := "aes-gcm"
def AlgoChaCha20Poly : String := "chacha20-poly1305"

/-- A Go `float64`, kept as its IEEE-754 bit pattern; no operation reads it. -/
abbrev Float64 := Nat

structure PortMap where
  Protocol : String
  Bind : String
  Target : String
  deriving DecidableEq, Repr

structure ConnectionPath where
  Transport : String
  Address : String
  PoolSize : Int
  AggressivePool : Bool
  RetryInterval : time.Duration
  DialTimeout : time.Duration
  deriving DecidableEq, Repr

structure TLSConfig where
  Enabled : Bool
  CertFile : String
  KeyFile : String
  CAFile : String
  Insecure : Bool
  deriving DecidableEq, Repr

structure KCPConfig where
  NoDelay : Int
  Interval : Int
  Resend : Int
  NC : Int
  SndWnd : Int
  RcvWnd : Int
  MTU : Int
  deriving DecidableEq, Repr

structure WebSocketConfig where
  ReadBufferSize : Int
  WriteBufferSize : Int
  Compression : Bool
  deriving DecidableEq, Repr

structure TransportConfig where
  «Type» : String
  TLS : TLSConfig
  KCP : KCPConfig
  WebSocket : WebSocketConfig
  deriving DecidableEq, Repr

structure EncryptionConfig where
  PSK : String
  Algorithm : String
  deriving DecidableEq, Repr

structure MultiplexerConfig where
  Enabled : Bool
  KeepAlive : Int
  MaxReceiveBuffer : Int
  MaxStreamBuffer : Int
  FrameSize : Int
  Version : Int
  deriving DecidableEq, Repr

structure ObfuscationConfig where
  Enabled : Bool
  MinPadding : Int
  MaxPadding : Int
  MinDelay : Int
  MaxDelay : Int
  BurstChance : Float64
  deriving DecidableEq, Repr

structure HTTPMimicConfig where
  Enabled : Bool
  FakeDomain : String
  FakePath : String
  UserAgent : String
  ChunkedEncoding : Bool
  SessionCookie : Bool
  CustomHeaders : List String
  deriving DecidableEq, Repr

structure PerformanceConfig where
  TCPNoDelay : Bool
  TCPKeepAlive : Int
  TCPReadBuffer : Int
  TCPWriteBuffer : Int
  MaxConnections : Int
  CleanupInterval : Int
  SessionTimeout : Int
  ConnectionTimeout : Int
  StreamTimeout : Int
  MaxUDPFlows : Int
  UDPFlowTimeout : Int
  UDPBufferSize : Int
  deriving DecidableEq, Repr

/-- The complete configuration (`config.Config`). -/
structure Config where
  Mode : String
  Verbose : Bool
  Profile : String
  Listen : String
  Maps : List PortMap
  Paths : List ConnectionPath
  Transport : TransportConfig
  Encryption : EncryptionConfig
  Multiplexer : MultiplexerConfig
  Obfuscation : ObfuscationConfig
  HTTPMimic : HTTPMimicConfig
  Performance : PerformanceConfig
  deriving DecidableEq, Repr

/-- Go method `(*Config).Validate`: the four guarded returns in source order, then `nil`. -/
def Config.Validate (c : Config) : Option ConfigError :=
  if c.Mode != "server" && c.Mode != "client" then
    some ErrInvalidMode
  else if c.Mode == "server" && c.Listen == "" then
    some ErrMissingListen
  else if c.Mode == "client" && c.Paths.length == 0 then
    some ErrMissingPaths
  else if c.Encryption.PSK == "" then
    some ErrMissingPSK
  else
    none

/-- Go method `(*Config).IsServer`. -/
def Config.IsServer (c : Config) : Bool :=
  c.Mode == "server"

/-- Go method `(*Config).IsClient`. -/
def Config.IsClient (c : Config) : Bool :=
  c.Mode == "client"

/-- The six `Transport*` constants of `errors.go`, the values the comment on
`TransportConfig.Type` lists. -/
def transportTypes : List String :=
  [TransportTCP, TransportKCP, TransportWS, TransportWSS, TransportHTTP, TransportHTTPS]

/-- The two `Algo*` constants of `errors.go`, the values the comment on
`EncryptionConfig.Algorithm` lists. -/
def encryptionAlgorithms : List String :=
  [AlgoAESGCM, AlgoChaCha20Poly]

/-- The Go zero value of `Config`. -/
def Config.zero : Config where
  Mode := ""
  Verbose := false
  Profile := ""
  Listen := ""
  Maps := []
  Paths := []
  Transport :=
    { «Type» := ""
      TLS := { Enabled := false, CertFile := "", KeyFile := "", CAFile := "", Insecure := false }
      KCP := { NoDelay := 0, Interval := 0, Resend := 0, NC := 0, SndWnd := 0, RcvWnd := 0,
               MTU := 0 }
      WebSocket := { ReadBufferSize := 0, WriteBufferSize := 0, Compression := false } }
  Encryption := { PSK := "", Algorithm := "" }
  Multiplexer :=
    { Enabled := false, KeepAlive := 0, MaxReceiveBuffer := 0, MaxStreamBuffer := 0,
      FrameSize := 0, Version := 0 }
  Obfuscation :=
    { Enabled := false, MinPadding := 0, MaxPadding := 0, MinDelay := 0, MaxDelay := 0,
      BurstChance := 0 }
  HTTPMimic :=
    { Enabled := false, FakeDomain := "", FakePath := "", UserAgent := "",
      ChunkedEncoding := false, SessionCookie := false, CustomHeaders := [] }
  Performance :=
    { TCPNoDelay := false, TCPKeepAlive := 0, TCPReadBuffer := 0, TCPWriteBuffer := 0,
      MaxConnections := 0, CleanupInterval := 0, SessionTimeout := 0, ConnectionTimeout := 0,
      StreamTimeout := 0, MaxUDPFlows := 0, UDPFlowTimeout := 0, UDPBufferSize := 0 }

/-- A server configuration with a listen address and a key, whose transport type and
encryption algorithm are outside the declared constants. -/
def serverOddTransport : Config :=
  { Config.zero with
    Mode := "server"
    Listen := "0.0.0.0:8443"
    Transport := { Config.zero.Transport with «Type» := "carrier-pigeon" }
    Encryption := { PSK := "hunter2", Algorithm := "rot13" } }

/-- A client configuration with one path and a key. -/
def clientOnePath : Config :=
  { Config.zero with
    Mode := "client"
    Paths := [{ Transport := "tcp", Address := "203.0.113.7:8443", PoolSize := 3,
                AggressivePool := false, RetryInterval := 3 * time.Second,
                DialTimeout := 10 * time.Second }]
    Transport := { Config.zero.Transport with «Type» := "tcp" }
    Encryption := { PSK := "hunter2", Algorithm := "aes-gcm" } }

end config

namespace transport

structure TLSConfig where
  Enabled : Bool
  CertFile : String
  KeyFile : String
  CAFile : String
  Insecure : Bool
  deriving DecidableEq, Repr

structure KCPConfig where
  NoDelay : Int
  Interval : Int
  Resend : Int
  NC : Int
  SndWnd : Int
  RcvWnd : Int
  MTU : Int
  deriving DecidableEq, Repr

structure WebSocketConfig where
  ReadBufferSize : Int
  WriteBufferSize : Int
  Compression : Bool
  deriving DecidableEq, Repr

structure HTTPMimicConfig where
  Enabled : Bool
  FakeDomain : String
  FakePath : String
  UserAgent : String
  ChunkedEncoding : Bool
  SessionCookie : Bool
  CustomHeaders : List String
  deriving DecidableEq, Repr

/-- The transport configuration (`transport.Config`); the four pointer fields are `Option`s. -/
structure Config where
  «Type» : String
  TLS : Option TLSConfig
  KCP : Option KCPConfig
  WebSocket : Option WebSocketConfig
  HTTPMimic : Option HTTPMimicConfig
  DialTimeout : time.Duration
  ReadTimeout : time.Duration
  WriteTimeout : time.Duration
  ReadBufferSize : Int
  WriteBufferSize : Int
  deriving DecidableEq, Repr

/-- Go function `DefaultConfig`: the composite literal sets six fields, the pointer fields
keep their zero value `nil`. -/
def DefaultConfig : Config where
  «Type» := "tcp"
  TLS := none
  KCP := none
  WebSocket := none
  HTTPMimic := none
  DialTimeout := 10 * time.Second
  ReadTimeout := 60 * time.Second
  WriteTimeout := 60 * time.Second
  ReadBufferSize := 4194304
  WriteBufferSize := 4194304

end transport

namespace fmt

/-- One observable step of a run: entering a function of the program, or text written to
standard output by `fmt.Printf`. -/
inductive Event where
  | enter (fn : String)
  | print (text : String)
  deriving DecidableEq, Repr

/-- What a call leaves behind: its events in order, and the returned `error`
(`none` is nil; an error built by `fmt.Errorf` is given by its message). -/
structure Run where
  trace : List Event
  err : Option String
  deriving DecidableEq, Repr

/-- The verb `%v` applied to a `bool`. -/
def verbBool (b : Bool) : String :=
  if b then "true" else "false"

end fmt

namespace session

open fmt

/-- The placeholder type `session.Client`: a struct without fields. -/
structure Client where
  deriving DecidableEq, Repr

/-- The placeholder type `session.Server`: a struct without fields. -/
structure Server where
  deriving DecidableEq, Repr

/-- Go method `(*Client).Start`: prints one line, then returns the `fmt.Errorf` error. -/
def Client.Start (_c : Client) (configFile : String) (verbose : Bool) : Run where
  trace :=
    [Event.enter "session.Client.Start",
     Event.print ("[session.Client] Starting with config: " ++ configFile ++ " (verbose=" ++
       verbBool verbose ++ ")\n")]
  err := some "client session not implemented yet"

/-- Go method `(*Server).Start`: prints one line, then returns the `fmt.Errorf` error. -/
def Server.Start (_s : Server) (configFile : String) (verbose : Bool) : Run where
  trace :=
    [Event.enter "session.Server.Start",
     Event.print ("[session.Server] Starting with config: " ++ configFile ++ " (verbose=" ++
       verbBool verbose ++ ")\n")]
  err := some "server session not implemented yet"

end session

namespace cli

open fmt

/-- Go function `runServer`: prints one line and returns its own `fmt.Errorf` error; the
body has no call into package `session`. -/
def runServer (configFile : String) (_verbose : Bool) : Run where
  trace :=
    [Event.enter "cli.runServer",
     Event.print ("Starting ShadowLink server with config: " ++ configFile ++ "\n")]
  err := some "not implemented yet - see internal/session/server.go"

/-- Go function `runClient`: prints one line, then returns what `Start` of a fresh
`session.Client` returns. -/
def runClient (configFile : String) (verbose : Bool) : Run :=
  let client : session.Client := {}
  let r := client.Start configFile verbose
  { trace :=
      [Event.enter "cli.runClient",
       Event.print ("Starting ShadowLink client with config: " ++ configFile ++ "\n")] ++
      r.trace
    err := r.err }

end cli

open config config.ConfigError fmt

/-- An accepted configuration passed the mode check: its mode is "server" or "client". -/
lemma config.Config.mode_of_validate_nil (c : Config) (h : c.Validate = none) :
    c.Mode = "server" ∨ c.Mode = "client" := by
  unfold Config.Validate at h
  by_cases hs : c.Mode = "server"
  · exact Or.inl hs
  · by_cases hc : c.Mode = "client"
    · exact Or.inr hc
    · simp [hs, hc] at h

/-- C1: `Validate` returns nil exactly when the pre-shared key is non-empty, the mode is
"server" or "client", and the endpoint of that mode is present (a non-empty `Listen` for
"server", at least one entry of `Paths` for "client"). -/
theorem validate_nil_iff (c : Config) :
    c.Validate = none ↔
      (c.Encryption.PSK ≠ "" ∧ (c.Mode = "server" ∨ c.Mode = "client") ∧
        (c.Mode = "server" → c.Listen ≠ "") ∧ (c.Mode = "client" → 1 ≤ c.Paths.length)) := by
  unfold Config.Validate
  have hsc : ("server" : String) ≠ "client" := by decide
  by_cases hs : c.Mode = "server"
  · by_cases hl : c.Listen = "" <;> by_cases hp : c.Encryption.PSK = "" <;>
      simp [hs, hl, hp, hsc]
  · by_cases hc : c.Mode = "client"
    · by_cases hn : c.Paths.length = 0 <;> by_cases hp : c.Encryption.PSK = "" <;>
        simp [hc, hn, hp, hsc.symm, Nat.one_le_iff_ne_zero]
    · simp [hs, hc]

/-- C1 at a concrete accepted input: the client configuration with one path meets the
three conditions and `Validate` returns nil for it. -/
theorem validate_nil_iff_witness :
    clientOnePath.Validate = none ∧ clientOnePath.Encryption.PSK ≠ "" ∧
      1 ≤ clientOnePath.Paths.length :=
  have h := (validate_nil_iff clientOnePath).1 (by decide)
  ⟨by decide, h.1, h.2.2.2 (by decide)⟩

/-- C2: `Validate` reports the first failing check in the order mode, endpoint, key:
`ErrInvalidMode` exactly when the mode is neither "server" nor "client",
`ErrMissingListen` exactly when the mode is "server" and `Listen` is empty,
`ErrMissingPaths` exactly when the mode is "client" and `Paths` is empty,
`ErrMissingPSK` exactly when the mode and endpoint checks pass and the key is empty;
the result is nil or one of these four, never another error value. -/
theorem validate_error_order (c : Config) :
    (c.Validate = some ErrInvalidMode ↔ (c.Mode ≠ "server" ∧ c.Mode ≠ "client")) ∧
    (c.Validate = some ErrMissingListen ↔ (c.Mode = "server" ∧ c.Listen = "")) ∧
    (c.Validate = some ErrMissingPaths ↔ (c.Mode = "client" ∧ c.Paths.length = 0)) ∧
    (c.Validate = some ErrMissingPSK ↔
      ((c.Mode = "server" ∨ c.Mode = "client") ∧ ¬ (c.Mode = "server" ∧ c.Listen = "") ∧
        ¬ (c.Mode = "client" ∧ c.Paths.length = 0) ∧ c.Encryption.PSK = "")) ∧
    (c.Validate = none ∨ c.Validate = some ErrInvalidMode ∨
      c.Validate = some ErrMissingListen ∨ c.Validate = some ErrMissingPaths ∨
      c.Validate = some ErrMissingPSK) := by
  unfold Config.Validate
  have hsc : ("server" : String) ≠ "client" := by decide
  by_cases hs : c.Mode = "server"
  · by_cases hl : c.Listen = "" <;> by_cases hp : c.Encryption.PSK = "" <;>
      simp [hs, hl, hp, hsc]
  · by_cases hc : c.Mode = "client"
    · by_cases hn : c.Paths.length = 0 <;> by_cases hp : c.Encryption.PSK = "" <;>
        simp [hc, hn, hp, hsc.symm]
    · simp [hs, hc]

/-- C3 fails as stated: `Validate` accepts a server configuration whose transport type is
"carrier-pigeon" and whose algorithm is "rot13", neither among the declared constants. -/
theorem validate_accepts_undeclared_transport :
    serverOddTransport.Validate = none ∧
      serverOddTransport.Transport.«Type» ∉ transportTypes ∧
      serverOddTransport.Encryption.Algorithm ∉ encryptionAlgorithms := by
  decide

/-- C3 as amended: `Validate` does not read `Transport.Type` or `Encryption.Algorithm`;
putting any two strings there leaves its result unchanged, so acceptance constrains
neither field. -/
theorem validate_ignores_transport_and_algorithm (c : Config) (t a : String) :
    ({ c with
        Transport := { c.Transport with «Type» := t }
        Encryption := { c.Encryption with Algorithm := a } } : Config).Validate =
      c.Validate := by
  rfl

/-- C6: `DefaultConfig` has type "tcp", a dial timeout of 10 seconds, read and write
timeouts of 60 seconds, read and write buffers of 4 * 1024 * 1024 = 4194304 bytes, and
no TLS, KCP, WebSocket or HTTP-mimic sub-configuration. -/
theorem defaultConfig_values :
    transport.DefaultConfig.«Type» = "tcp" ∧
    transport.DefaultConfig.DialTimeout = 10 * time.Second ∧
    transport.DefaultConfig.DialTimeout = 10000000000 ∧
    transport.DefaultConfig.ReadTimeout = 60 * time.Second ∧
    transport.DefaultConfig.WriteTimeout = 60 * time.Second ∧
    transport.DefaultConfig.ReadTimeout = 60000000000 ∧
    transport.DefaultConfig.WriteTimeout = 60000000000 ∧
    transport.DefaultConfig.ReadBufferSize = 4 * 1024 * 1024 ∧
    transport.DefaultConfig.WriteBufferSize = 4 * 1024 * 1024 ∧
    transport.DefaultConfig.ReadBufferSize = 4194304 ∧
    transport.DefaultConfig.WriteBufferSize = 4194304 ∧
    transport.DefaultConfig.TLS = none ∧
    transport.DefaultConfig.KCP = none ∧
    transport.DefaultConfig.WebSocket = none ∧
    transport.DefaultConfig.HTTPMimic = none := by
  decide

/-- C7: `IsServer` and `IsClient` are never both true, and when `Validate` returns nil
exactly one of them is true. -/
theorem isServer_isClient_exclusive (c : Config) :
    ¬ (c.IsServer = true ∧ c.IsClient = true) ∧
    (c.Validate = none →
      ((c.IsServer = true ∧ c.IsClient = false) ∨
        (c.IsServer = false ∧ c.IsClient = true))) := by
  have hsc : ("server" : String) ≠ "client" := by decide
  refine ⟨?_, ?_⟩
  · simp only [Config.IsServer, Config.IsClient, beq_iff_eq]
    rintro ⟨hs, hc⟩
    exact hsc (hs.symm.trans hc)
  · intro hv
    rcases Config.mode_of_validate_nil c hv with hs | hc
    · left
      simp [Config.IsServer, Config.IsClient, hs, hsc]
    · right
      simp [Config.IsServer, Config.IsClient, hc, hsc.symm]

/-- C7 at a concrete accepted input: the client configuration with one path is accepted,
and it is a client and not a server. -/
theorem isServer_isClient_exclusive_witness :
    clientOnePath.Validate = none ∧
      ((clientOnePath.IsServer = true ∧ clientOnePath.IsClient = false) ∨
        (clientOnePath.IsServer = false ∧ clientOnePath.IsClient = true)) :=
  ⟨by decide, (isServer_isClient_exclusive clientOnePath).2 (by decide)⟩

/-- C8: for every config-file path and verbose flag, `Client.Start` and `Server.Start`
return the non-nil errors "client session not implemented yet" and "server session not
implemented yet"; `runClient` enters `Client.Start` and returns exactly its error;
`runServer` returns a non-nil error and never enters `Server.Start`. -/
theorem session_start_always_fails (cl : session.Client) (sv : session.Server)
    (configFile : String) (verbose : Bool) :
    (cl.Start configFile verbose).err = some "client session not implemented yet" ∧
    (sv.Start configFile verbose).err = some "server session not implemented yet" ∧
    (cl.Start configFile verbose).err ≠ none ∧
    (sv.Start configFile verbose).err ≠ none ∧
    Event.enter "session.Client.Start" ∈ (cli.runClient configFile verbose).trace ∧
    (cli.runClient configFile verbose).err = (cl.Start configFile verbose).err ∧
    (cli.runServer configFile verbose).err ≠ none ∧
    Event.enter "session.Server.Start" ∉ (cli.runServer configFile verbose).trace ∧
    (∀ e ∈ (sv.Start configFile verbose).trace, e ∉ (cli.runServer configFile verbose).trace) := by
  refine ⟨rfl, rfl, by simp [session.Client.Start], by simp [session.Server.Start], ?_, rfl,
    by simp [cli.runServer], ?_, ?_⟩
  · simp [cli.runClient, session.Client.Start]
  · simp [cli.runServer]
  · have hhead : ∀ x y : String,
        "[session.Server] Starting with config: " ++ x ≠
          "Starting ShadowLink server with config: " ++ y := by
      intro x y h
      have h2 := congrArg (fun s : String => s.data.head?) h
      simp [String.data_append] at h2
    simp only [cli.runServer, session.Server.Start, List.mem_cons, List.mem_singleton,
      List.not_mem_nil, or_false, not_or, forall_eq_or_imp, forall_eq, String.append_assoc]
    refine ⟨⟨by simp, by simp⟩, by simp, fun h => hhead _ _ (Event.print.inj h)⟩
